import Mathlib

/-!
Shallow embedding of `src/ros/src/tl_detector/tl_detector.py` (class
`TLDetector`), the traffic-light detection node of the CarND-Capstone
repository.

Modelling choices:
* 2D positions are pairs of integers; the nearest-waypoint query of the
  scipy `KDTree` is embedded as an exact argmin of squared Euclidean
  distance over the point list the tree was built from (first minimum
  wins).  Python integers are arbitrary precision, so `Int`/`Nat` are
  exact.
* Fields of the `TLDetector` object that the core logic reads become
  fields of `DetectorState`; Python `None` becomes `Option.none`.
* Operations that can raise a Python exception (`AttributeError` on a
  `None` attribute, `IndexError` on list indexing) return
  `Except String _`; the error string records the Python exception.
* The `has_image` attribute is not initialized by `__init__` in the
  source: it is modelled as `Option Bool`, `none` meaning the attribute
  is unset, and reading it while unset raises an `AttributeError`, so
  `get_light_state` returns `Except String GLSRet`.  `retFalse` is the
  Python literal `False` that the (dead) `return False` statement would
  produce for a falsy `has_image`.  Python `==` identifies `False` with
  `0` (`TrafficLight.RED`), so equality comparisons in the debouncer go
  through `GLSRet.val`.
* The external classifier (together with the cv_bridge image conversion)
  is an opaque parameter `classify`; camera images are opaque `Nat`
  payloads.
-/

/-- Constant `STATE_COUNT_THRESHOLD = 3` from tl_detector.py. -/
def STATE_COUNT_THRESHOLD : Nat := 3

/-- Constant `WAYPOINT_LOOKAHEAD = 100` from tl_detector.py. -/
def WAYPOINT_LOOKAHEAD : Int := 100

/-- Constant `MOCK_TRAFFIC_LIGHTS = False` from tl_detector.py. -/
def MOCK_TRAFFIC_LIGHTS : Bool := false

namespace TrafficLight

/-- Color code `RED = 0` of the styx_msgs/TrafficLight message. -/
def RED : Nat := 0

/-- Color code `YELLOW = 1` of the styx_msgs/TrafficLight message. -/
def YELLOW : Nat := 1

/-- Color code `GREEN = 2` of the styx_msgs/TrafficLight message. -/
def GREEN : Nat := 2

/-- Color code `UNKNOWN = 4` of the styx_msgs/TrafficLight message. -/
def UNKNOWN : Nat := 4

end TrafficLight

/-- One styx_msgs/TrafficLight element: a ground position and (used only
in mock mode) the ground-truth color label `light.state`. -/
structure Light where
  pos : Int × Int
  lstate : Nat
deriving DecidableEq

/-- Possible non-exceptional results of `get_light_state`: either the
Python literal `False` (the value the branch guarded by a falsy
`self.has_image` would return) or a color code. -/
inductive GLSRet where
  | retFalse : GLSRet
  | retColor : Nat → GLSRet
deriving DecidableEq

/-- Numeric value a `GLSRet` takes under Python `==`: `False == 0` is
true in Python, so `retFalse` compares like the color code `0`. -/
def GLSRet.val : GLSRet → Nat
  | .retFalse => 0
  | .retColor c => c

/-- The mutable fields of the `TLDetector` object that the core logic
reads or writes.  `config` models `self.config["stop_line_positions"]`,
the only part of the static configuration the core uses.  `has_image` is
left unset by `__init__` in the Python source and first assigned (to
`True`) in `image_cb`; it is modelled as an `Option Bool` that is `none`
while the attribute does not exist, so that reading it can raise. -/
structure DetectorState where
  pose : Option (Int × Int)
  waypoints : Option (List (Int × Int))
  camera_image : Option Nat
  lights : List Light
  waypoints_2d : Option (List (Int × Int))
  waypoint_tree : Option (List (Int × Int))
  config : List (Int × Int)
  has_image : Option Bool
  state : GLSRet
  last_state : GLSRet
  last_wp : Int
  state_count : Nat
deriving DecidableEq

/-- The state `__init__` establishes: no pose, no path, no image (the
`has_image` attribute does not exist yet), empty light list, debouncer
at `RED`/`RED`/`-1`/`0`. -/
def initDetector (cfg : List (Int × Int)) : DetectorState :=
  { pose := none
    waypoints := none
    camera_image := none
    lights := []
    waypoints_2d := none
    waypoint_tree := none
    config := cfg
    has_image := none
    state := .retColor TrafficLight.RED
    last_state := .retColor TrafficLight.RED
    last_wp := -1
    state_count := 0 }

/-- Squared Euclidean distance between two integer points. -/
def sqDist (p q : Int × Int) : Int :=
  (p.1 - q.1) ^ 2 + (p.2 - q.2) ^ 2

/-- Scan of the tail of the point list, carrying the index `i` of the
next point and the best index/best squared distance seen so far; a later
point replaces the best only on a strictly smaller distance. -/
def nearestAux (p : Int × Int) : List (Int × Int) → Nat → Nat → Int → Nat
  | [], _, bi, _ => bi
  | q :: rest, i, bi, bd =>
    if sqDist p q < bd then nearestAux p rest (i + 1) i (sqDist p q)
    else nearestAux p rest (i + 1) bi bd

/-- Index of the point of `pts` nearest to `p` (first minimum wins):
the embedding of `self.waypoint_tree.query([x, y], 1)[1]`, i.e. of
`TLDetector.get_closest_waypoint`, with `pts` the list the KDTree was
built from.  On an empty list it returns `0` (the real KDTree cannot be
built from an empty list at all). -/
def nearestIdx (pts : List (Int × Int)) (p : Int × Int) : Nat :=
  match pts with
  | [] => 0
  | q :: rest => nearestAux p rest 1 0 (sqDist p q)

/-- Signed path-index distance `d_j = lineIdx_j - carIdx` of light `j`:
the value `distance = temp_wp_idx - car_position` the loop of
`get_closest_light_in_front` computes for iteration `j`. -/
def dIdx (tree slp : List (Int × Int)) (car : Nat) (j : Nat) : Int :=
  ((nearestIdx tree ((slp[j]?).getD (0, 0)) : Int)) - (car : Int)

/-- The `for i, light in enumerate(self.lights)` loop of
`get_closest_light_in_front`: `i` is the current enumeration index,
`best` holds `(closest_light, line_wp_idx)` (both are updated together
in the source, and are `None` together before the first hit), `diff` the
current minimum.  `stop_line_positions[i]` raises `IndexError` past the
end; querying a `None` tree raises `AttributeError`. -/
def gclifAux (tree? : Option (List (Int × Int))) (car : Nat)
    (slp : List (Int × Int)) :
    List Light → Nat → Option (Light × Nat) → Int →
      Except String (Option (Light × Nat) × Int)
  | [], _, best, diff => .ok (best, diff)
  | light :: rest, i, best, diff =>
    match slp[i]? with
    | none => .error "IndexError: list index out of range"
    | some line =>
      match tree? with
      | none => .error "AttributeError: NoneType object has no attribute query"
      | some tree =>
        let temp_wp_idx := nearestIdx tree line
        let distance : Int := (temp_wp_idx : Int) - (car : Int)
        if 0 ≤ distance ∧ distance < diff then
          gclifAux tree? car slp rest (i + 1) (some (light, temp_wp_idx)) distance
        else
          gclifAux tree? car slp rest (i + 1) best diff

/-- Embedding of `TLDetector.get_closest_light_in_front`: reads
`len(self.waypoints.waypoints)` as the initial `diff` (raising
`AttributeError` when `self.waypoints` is `None` and the light list
would force it to be read — the source reads it unconditionally before
the loop, so it raises whenever `waypoints` is `None`), then runs the
loop over `self.lights`. -/
def get_closest_light_in_front (s : DetectorState) (car_position : Nat)
    (stop_line_positions : List (Int × Int)) :
    Except String (Option (Light × Nat) × Int) :=
  match s.waypoints with
  | none => .error "AttributeError: NoneType object has no attribute waypoints"
  | some wps =>
    gclifAux s.waypoint_tree car_position stop_line_positions s.lights 0 none
      ((wps.length : Int))

/-- Embedding of `TLDetector.get_light_state`.  With
`MOCK_TRAFFIC_LIGHTS` false, the statement `if not self.has_image:`
reads the `has_image` attribute: if it does not exist (no image ever
received) this raises an `AttributeError`; if it exists and is falsy the
function returns the Python literal `False`; otherwise it returns the
classifier result on the current camera image. -/
def get_light_state (classify : Option Nat → Nat) (s : DetectorState)
    (light : Light) : Except String GLSRet :=
  if MOCK_TRAFFIC_LIGHTS then .ok (.retColor light.lstate)
  else
    match s.has_image with
    | none => .error "AttributeError: TLDetector object has no attribute has_image"
    | some b =>
      if b = false then .ok .retFalse
      else .ok (.retColor (classify s.camera_image))

/-- Embedding of `TLDetector.process_traffic_lights`: with no pose,
return `(-1, UNKNOWN)` at once; otherwise query the nearest waypoint to
the pose (raising on a missing tree), select the closest light in front,
and gate the result on `distance < WAYPOINT_LOOKAHEAD`. -/
def process_traffic_lights (classify : Option Nat → Nat)
    (s : DetectorState) : Except String (Int × GLSRet) :=
  match s.pose with
  | none => .ok (-1, .retColor TrafficLight.UNKNOWN)
  | some p =>
    match s.waypoint_tree with
    | none => .error "AttributeError: NoneType object has no attribute query"
    | some tree =>
      match get_closest_light_in_front s (nearestIdx tree p) s.config with
      | .error e => .error e
      | .ok (best, distance) =>
        match best with
        | some (light, line_wp_idx) =>
          if distance < WAYPOINT_LOOKAHEAD then
            match get_light_state classify s light with
            | .error e => .error e
            | .ok g => .ok ((line_wp_idx : Int), g)
          else
            .ok (-1, .retColor TrafficLight.UNKNOWN)
        | none => .ok (-1, .retColor TrafficLight.UNKNOWN)

/-- The debouncing tail of `TLDetector.image_cb` (lines 102-112 of the
source): one frame's `(light_wp, state)` updates the four debouncer
fields and yields the value published this frame (`none` when the
color-change branch publishes nothing).  Comparisons use `GLSRet.val`
because Python `==` identifies `False` with `0`.  The reset branch sets
`state_count` to `0` and the trailing `self.state_count += 1` then makes
it `1`. -/
def debounceStep (s : DetectorState) (light_wp : Int) (obs : GLSRet) :
    DetectorState × Option Int :=
  if s.state.val ≠ obs.val then
    ({ s with state := obs, state_count := 0 + 1 }, none)
  else if STATE_COUNT_THRESHOLD ≤ s.state_count then
    ({ s with
        last_state := s.state
        last_wp := if obs.val = TrafficLight.RED then light_wp else -1
        state_count := s.state_count + 1 },
      some (if obs.val = TrafficLight.RED then light_wp else -1))
  else
    ({ s with state_count := s.state_count + 1 }, some s.last_wp)

/-- Iterated `debounceStep` over a list of per-frame inputs, collecting
each frame's published value. -/
def debounceRun (s : DetectorState) :
    List (Int × GLSRet) → DetectorState × List (Option Int)
  | [] => (s, [])
  | (wp, c) :: rest =>
    let r := debounceStep s wp c
    let r2 := debounceRun r.1 rest
    (r2.1, r.2 :: r2.2)

/-- Embedding of `TLDetector.image_cb`: set `has_image` to `True` and
store the frame, run `process_traffic_lights`, then debounce and
publish. -/
def image_cb (classify : Option Nat → Nat) (s : DetectorState)
    (msg : Nat) : Except String (DetectorState × Option Int) :=
  let s1 := { s with has_image := some true, camera_image := some msg }
  match process_traffic_lights classify s1 with
  | .error e => .error e
  | .ok (light_wp, obs) => .ok (debounceStep s1 light_wp obs)

/-- Python truthiness of `self.waypoints_2d`: falsy when it is `None` or
the empty list. -/
def pyFalsy : Option (List (Int × Int)) → Bool
  | none => true
  | some l => l.isEmpty

/-- Embedding of `TLDetector.waypoints_cb`: `self.waypoints = waypoints`
runs unconditionally; the 2D projection and the KDTree (modelled as the
point list it is built from) are assigned only when `self.waypoints_2d`
is falsy. -/
def waypoints_cb (s : DetectorState) (wps : List (Int × Int)) :
    DetectorState :=
  let s1 := { s with waypoints := some wps }
  if pyFalsy s1.waypoints_2d then
    { s1 with waypoints_2d := some wps, waypoint_tree := some wps }
  else s1

/-! Helper lemmas about the nearest-waypoint query. -/

theorem nearestAux_lt (p : Int × Int) :
    ∀ (ls : List (Int × Int)) (i bi : Nat) (bd : Int), bi < i →
      nearestAux p ls i bi bd < i + ls.length := by
  intro ls
  induction ls with
  | nil => intro i bi bd h; simpa [nearestAux] using h
  | cons q rest ih =>
    intro i bi bd h
    rw [List.length_cons]
    simp only [nearestAux]
    split
    · have h2 := ih (i + 1) i (sqDist p q) (Nat.lt_succ_self i)
      omega
    · have h2 := ih (i + 1) bi bd (by omega)
      omega

theorem nearestIdx_lt (pts : List (Int × Int)) (p : Int × Int)
    (h : pts ≠ []) : nearestIdx pts p < pts.length := by
  cases pts with
  | nil => exact absurd rfl h
  | cons q rest =>
    simp only [nearestIdx]
    have h2 := nearestAux_lt p rest 1 0 (sqDist p q) Nat.one_pos
    rw [List.length_cons]
    omega

/-- C5: if no vehicle pose is known, `process_traffic_lights` returns
the pair `(-1, UNKNOWN)` immediately; the statement holds for every
state, in particular for states with no waypoint index at all, in which
a nearest-waypoint query or a light selection would raise — so neither
is performed. -/
theorem no_pose_no_stop (classify : Option Nat → Nat) (s : DetectorState)
    (h : s.pose = none) :
    process_traffic_lights classify s = .ok (-1, .retColor TrafficLight.UNKNOWN) := by
  unfold process_traffic_lights
  rw [h]

theorem no_pose_no_stop_witness :
    process_traffic_lights (fun _ => TrafficLight.RED) (initDetector []) =
      .ok (-1, .retColor TrafficLight.UNKNOWN) :=
  no_pose_no_stop _ _ rfl

/-- C6 counterexample: in the cold-start state where a pose is already
known but the path has not been delivered (no waypoint index built),
`process_traffic_lights` raises an `AttributeError` (querying the `None`
tree) instead of resolving to the no-stop result the claim promises. -/
theorem cold_start_path_missing_raises :
    process_traffic_lights (fun _ => TrafficLight.UNKNOWN)
      { initDetector [] with pose := some (0, 0) } =
      .error "AttributeError: NoneType object has no attribute query" := rfl

/-- C6 amended: when a pose is known but the waypoint index has not been
built (no path delivered yet), every frame-processing invocation fails
with an `AttributeError` rather than returning the no-stop result; only
the missing-pose case resolves to `(-1, UNKNOWN)` without failing. -/
theorem pose_without_path_errors (classify : Option Nat → Nat)
    (s : DetectorState) (p : Int × Int)
    (hp : s.pose = some p) (ht : s.waypoint_tree = none) :
    process_traffic_lights classify s =
      .error "AttributeError: NoneType object has no attribute query" := by
  unfold process_traffic_lights
  rw [hp, ht]

theorem pose_without_path_errors_witness :
    process_traffic_lights (fun _ => TrafficLight.GREEN)
      { initDetector [] with pose := some (3, 4) } =
      .error "AttributeError: NoneType object has no attribute query" :=
  pose_without_path_errors _ _ (3, 4) rfl rfl

/-- C7: on a commit step (observed value equal to the current state,
consecutive count at the threshold), the published value is the frame's
stop waypoint index when the state is RED and `-1` otherwise, and it is
stored in `last_wp`; `last_state` is set to the committed state and the
count keeps incrementing. -/
theorem commit_publishes_red_wp (s : DetectorState) (wp : Int) (c : GLSRet)
    (hc : c.val = s.state.val)
    (hcount : STATE_COUNT_THRESHOLD ≤ s.state_count) :
    debounceStep s wp c =
      ({ s with
          last_state := s.state
          last_wp := if s.state.val = TrafficLight.RED then wp else -1
          state_count := s.state_count + 1 },
        some (if s.state.val = TrafficLight.RED then wp else -1)) := by
  unfold debounceStep
  rw [hc, if_neg (by simp), if_pos hcount]

theorem commit_publishes_red_wp_witness :
    (debounceStep { initDetector [] with state_count := 3 } 7
      (.retColor TrafficLight.RED)).2 = some 7 := by
  rw [commit_publishes_red_wp { initDetector [] with state_count := 3 } 7
    (.retColor TrafficLight.RED) rfl (by decide)]
  decide

/-- C1 counterexample: starting from the initial debouncer state
(`RED`, count `0`, last published `-1`), four consecutive RED frames
with stop index 7 publish `-1, -1, -1, 7`: the third consecutive
identical observation still republishes the old value, and the output
updates only on the fourth — not on the `THRESHOLD`-th (third) as the
claim states. -/
theorem debounce_third_frame_still_republishes :
    (debounceRun (initDetector [])
      [(7, .retColor TrafficLight.RED), (7, .retColor TrafficLight.RED),
       (7, .retColor TrafficLight.RED), (7, .retColor TrafficLight.RED)]).2 =
      [some (-1), some (-1), some (-1), some 7] := by decide

/-- C1 amended: after a frame whose observed color differs from the
current state (which resets the count to 0 and increments it to 1,
publishing nothing), the next two identical observations republish the
previous `last_wp` unchanged, and the commit — publishing the fresh
value, `wp` for RED and `-1` otherwise — happens exactly on the fourth
consecutive identical observation, i.e. on the `THRESHOLD + 1`-th, the
first frame whose entry count has reached `STATE_COUNT_THRESHOLD`. -/
theorem debounce_commit_on_fourth (s : DetectorState) (wp : Int) (c : GLSRet)
    (h : s.state.val ≠ c.val) :
    (debounceRun s [(wp, c), (wp, c), (wp, c), (wp, c)]).2 =
      [none, some s.last_wp, some s.last_wp,
        some (if c.val = TrafficLight.RED then wp else -1)] ∧
    (debounceRun s [(wp, c), (wp, c), (wp, c), (wp, c)]).1.state = c ∧
    (debounceRun s [(wp, c), (wp, c), (wp, c), (wp, c)]).1.state_count = 4 ∧
    (debounceRun s [(wp, c), (wp, c), (wp, c), (wp, c)]).1.last_wp =
      (if c.val = TrafficLight.RED then wp else -1) ∧
    (debounceStep s wp c).1.state_count = 0 + 1 := by
  simp [debounceRun, debounceStep, STATE_COUNT_THRESHOLD, h]

theorem debounce_commit_on_fourth_witness :
    (debounceRun { initDetector [] with state := .retColor TrafficLight.GREEN }
      [(7, .retColor TrafficLight.RED), (7, .retColor TrafficLight.RED),
       (7, .retColor TrafficLight.RED), (7, .retColor TrafficLight.RED)]).2 =
      [none, some (-1), some (-1), some 7] := by
  have h := debounce_commit_on_fourth
    { initDetector [] with state := .retColor TrafficLight.GREEN } 7
    (.retColor TrafficLight.RED) (by decide)
  rw [h.1]
  decide

/-- C9: once committed (count at or above the threshold with an
unchanged color), every subsequent frame with the same observed color
takes the commit branch again: each frame publishes that frame's
freshly computed value (`w` for RED, `-1` otherwise) — so the published
index can change between consecutive frames without any color change —
the state never changes, and the count keeps growing, so the republish
branch is never taken until the observed color differs. -/
theorem post_commit_always_commits (c : GLSRet) :
    ∀ (wps : List Int) (s : DetectorState),
      s.state.val = c.val → STATE_COUNT_THRESHOLD ≤ s.state_count →
      (debounceRun s (wps.map (fun w => (w, c)))).2 =
        wps.map (fun w => some (if c.val = TrafficLight.RED then w else -1)) ∧
      (debounceRun s (wps.map (fun w => (w, c)))).1.state = s.state ∧
      (debounceRun s (wps.map (fun w => (w, c)))).1.state_count =
        s.state_count + wps.length := by
  intro wps
  induction wps with
  | nil => intro s hc hcount; simp [debounceRun]
  | cons w rest ih =>
    intro s hc hcount
    have hstep : debounceStep s w c =
        ({ s with
            last_state := s.state
            last_wp := if c.val = TrafficLight.RED then w else -1
            state_count := s.state_count + 1 },
          some (if c.val = TrafficLight.RED then w else -1)) := by
      unfold debounceStep
      rw [if_neg (by simp [hc]), if_pos hcount]
    have ih2 := ih { s with
        last_state := s.state
        last_wp := if c.val = TrafficLight.RED then w else -1
        state_count := s.state_count + 1 } (by simpa using hc)
      (by show STATE_COUNT_THRESHOLD ≤ s.state_count + 1; omega)
    simp only [List.map_cons, debounceRun, hstep]
    refine ⟨?_, ?_, ?_⟩
    · simpa using ih2.1
    · simpa using ih2.2.1
    · rw [List.length_cons, ih2.2.2]
      show s.state_count + 1 + rest.length = s.state_count + (rest.length + 1)
      omega

theorem post_commit_always_commits_witness :
    (debounceRun { initDetector [] with state_count := 5 }
      ([5, 9].map (fun w => (w, GLSRet.retColor TrafficLight.RED)))).2 =
      [5, 9].map (fun w =>
        some (if (GLSRet.retColor TrafficLight.RED).val = TrafficLight.RED
          then w else -1)) :=
  (post_commit_always_commits (.retColor TrafficLight.RED) [5, 9]
    { initDetector [] with state_count := 5 } rfl (by decide)).1

/-- C10 counterexample: in the initial state no image has ever been
received, so the `has_image` attribute does not exist and
`get_light_state` (mock mode off) raises an `AttributeError` at
`if not self.has_image:` — it does not return the value `False` as the
claim states. -/
theorem unset_has_image_attribute_error :
    get_light_state (fun _ => TrafficLight.GREEN) (initDetector [])
      ⟨(1, 1), TrafficLight.GREEN⟩ =
      .error "AttributeError: TLDetector object has no attribute has_image" :=
  rfl

/-- C10 amended: with mock mode off, `get_light_state` raises an
`AttributeError` (it never returns the value `False`) when the
`has_image` attribute is still unset, i.e. when no image has ever been
received; when the attribute has been set to `True` — as `image_cb`
does before invoking `process_traffic_lights` — it returns the
classifier result, and consequently every color the frame handler
obtains on the state `image_cb` builds is a genuine color value
(`retColor`), never the `False` of the dead branch: that branch is
unreachable from frame processing. -/
theorem has_image_error_path_unreachable (classify : Option Nat → Nat)
    (s : DetectorState) (light : Light) (msg : Nat) (wp : Int) (g : GLSRet) :
    (s.has_image = none → get_light_state classify s light =
      .error "AttributeError: TLDetector object has no attribute has_image") ∧
    (s.has_image = some true → get_light_state classify s light =
      .ok (.retColor (classify s.camera_image))) ∧
    (process_traffic_lights classify
        { s with has_image := some true, camera_image := some msg } =
        .ok (wp, g) →
      ∃ c, g = .retColor c) := by
  refine ⟨?_, ?_, ?_⟩
  · intro h
    simp [get_light_state, MOCK_TRAFFIC_LIGHTS, h]
  · intro h
    simp [get_light_state, MOCK_TRAFFIC_LIGHTS, h]
  · intro h
    have hgls : ∀ l2 : Light, get_light_state classify
        { s with has_image := some true, camera_image := some msg } l2 =
        .ok (.retColor (classify (some msg))) := by
      intro l2
      simp [get_light_state, MOCK_TRAFFIC_LIGHTS]
    unfold process_traffic_lights at h
    simp only [hgls] at h
    split at h
    · rw [Except.ok.injEq, Prod.mk.injEq] at h
      exact ⟨TrafficLight.UNKNOWN, h.2.symm⟩
    · split at h
      · exact absurd h (by simp)
      · split at h
        · exact absurd h (by simp)
        · split at h
          · split at h
            · rw [Except.ok.injEq, Prod.mk.injEq] at h
              exact ⟨classify (some msg), h.2.symm⟩
            · rw [Except.ok.injEq, Prod.mk.injEq] at h
              exact ⟨TrafficLight.UNKNOWN, h.2.symm⟩
          · rw [Except.ok.injEq, Prod.mk.injEq] at h
            exact ⟨TrafficLight.UNKNOWN, h.2.symm⟩

theorem has_image_error_path_unreachable_witness :
    get_light_state (fun _ => TrafficLight.RED) (initDetector [])
      ⟨(0, 0), TrafficLight.RED⟩ =
      .error "AttributeError: TLDetector object has no attribute has_image" ∧
    get_light_state (fun _ => TrafficLight.RED)
      { initDetector [] with has_image := some true }
      ⟨(0, 0), TrafficLight.RED⟩ = .ok (.retColor TrafficLight.RED) ∧
    ∃ c, GLSRet.retColor TrafficLight.UNKNOWN = .retColor c :=
  ⟨(has_image_error_path_unreachable (fun _ => TrafficLight.RED)
      (initDetector []) ⟨(0, 0), TrafficLight.RED⟩ 0 (-1)
      (.retColor TrafficLight.UNKNOWN)).1 rfl,
   (has_image_error_path_unreachable (fun _ => TrafficLight.RED)
      { initDetector [] with has_image := some true }
      ⟨(0, 0), TrafficLight.RED⟩ 0 (-1)
      (.retColor TrafficLight.UNKNOWN)).2.1 rfl,
   (has_image_error_path_unreachable (fun _ => TrafficLight.RED)
      (initDetector []) ⟨(0, 0), TrafficLight.RED⟩ 0 (-1)
      (.retColor TrafficLight.UNKNOWN)).2.2 rfl⟩

/-- Once `waypoints_2d` holds a nonempty list, a path delivery only
overwrites the stored `waypoints` field; the 2D projection and the index
are untouched. -/
theorem waypoints_cb_after_build (s : DetectorState)
    (wps d : List (Int × Int))
    (h2 : s.waypoints_2d = some wps) (hne : wps ≠ []) :
    waypoints_cb s d = { s with waypoints := some d } := by
  have hfalse : pyFalsy s.waypoints_2d = false := by
    rw [h2]
    cases wps with
    | nil => exact absurd rfl hne
    | cons a t => rfl
  simp [waypoints_cb, hfalse]

theorem foldl_waypoints_cb_stable :
    ∀ (ds : List (List (Int × Int))) (s : DetectorState)
      (wps w0 : List (Int × Int)),
      s.waypoints_2d = some wps → wps ≠ [] → s.waypoints = some w0 →
      (List.foldl waypoints_cb s ds).waypoints_2d = some wps ∧
      (List.foldl waypoints_cb s ds).waypoint_tree = s.waypoint_tree ∧
      (List.foldl waypoints_cb s ds).waypoints = some (ds.getLastD w0) := by
  intro ds
  induction ds with
  | nil => intro s wps w0 h2 hne h0; exact ⟨h2, rfl, by simpa using h0⟩
  | cons d rest ih =>
    intro s wps w0 h2 hne h0
    rw [List.foldl_cons, waypoints_cb_after_build s wps d h2 hne]
    have ih2 := ih { s with waypoints := some d } wps d (by simpa using h2)
      hne rfl
    refine ⟨ih2.1, ih2.2.1, ?_⟩
    rw [ih2.2.2, List.getLastD_cons]

/-- C8 counterexample: delivering the path `[(0,0)]` and then the path
`[(5,5),(6,6)]` leaves the index built from the first delivery but
overwrites the stored path with the second delivery — the second
delivery is not a no-op, contrary to the claim that neither the stored
path nor the index changes after the first build. -/
theorem stored_path_overwritten :
    (waypoints_cb (waypoints_cb (initDetector []) [(0, 0)])
        [(5, 5), (6, 6)]).waypoints = some [(5, 5), (6, 6)] ∧
    (waypoints_cb (waypoints_cb (initDetector []) [(0, 0)])
        [(5, 5), (6, 6)]).waypoint_tree = some [(0, 0)] ∧
    (waypoints_cb (initDetector []) [(0, 0)]).waypoints = some [(0, 0)] := by
  decide

/-- C8 amended: the first delivery of a nonempty path (into a state
whose `waypoints_2d` is still falsy) builds the 2D projection and the
index from that path, and no later delivery ever changes them — but the
stored `waypoints` field is overwritten by every delivery, ending as the
last delivered path, so later deliveries are not complete no-ops. -/
theorem index_built_once_path_overwritten (s : DetectorState)
    (wps : List (Int × Int)) (hf : pyFalsy s.waypoints_2d = true)
    (hne : wps ≠ []) (ds : List (List (Int × Int))) :
    (waypoints_cb s wps).waypoints_2d = some wps ∧
    (waypoints_cb s wps).waypoint_tree = some wps ∧
    (waypoints_cb s wps).waypoints = some wps ∧
    (List.foldl waypoints_cb (waypoints_cb s wps) ds).waypoints_2d = some wps ∧
    (List.foldl waypoints_cb (waypoints_cb s wps) ds).waypoint_tree = some wps ∧
    (List.foldl waypoints_cb (waypoints_cb s wps) ds).waypoints =
      some (ds.getLastD wps) := by
  have hbuild : waypoints_cb s wps =
      { s with waypoints := some wps, waypoints_2d := some wps,
               waypoint_tree := some wps } := by
    simp [waypoints_cb, hf]
  have hstable := foldl_waypoints_cb_stable ds
    { s with waypoints := some wps, waypoints_2d := some wps,
             waypoint_tree := some wps } wps wps rfl hne rfl
  rw [hbuild]
  exact ⟨rfl, rfl, rfl, hstable.1, hstable.2.1, hstable.2.2⟩

theorem index_built_once_path_overwritten_witness :
    (List.foldl waypoints_cb (waypoints_cb (initDetector []) [(1, 2)])
        [[(3, 4), (5, 6)]]).waypoint_tree = some [(1, 2)] ∧
    (List.foldl waypoints_cb (waypoints_cb (initDetector []) [(1, 2)])
        [[(3, 4), (5, 6)]]).waypoints =
      some ([[(3, 4), (5, 6)]].getLastD [(1, 2)]) := by
  have h := index_built_once_path_overwritten (initDetector []) [(1, 2)] rfl
    (by decide) [[(3, 4), (5, 6)]]
  exact ⟨h.2.2.2.2.1, h.2.2.2.2.2⟩

/-- C4: after the pose is resolved to a car index and the selection has
run, the frame result is the selected light's stop-line waypoint index
paired with the classification outcome (an exception from
`get_light_state` propagates) exactly when a light was selected and its
forward distance is strictly below `WAYPOINT_LOOKAHEAD` (100); with no
selected light, or with a selected light at distance
`WAYPOINT_LOOKAHEAD` or more (in particular exactly 100), the result is
`(-1, UNKNOWN)`. -/
theorem lookahead_gate (classify : Option Nat → Nat) (s : DetectorState)
    (p : Int × Int) (tree : List (Int × Int))
    (best : Option (Light × Nat)) (dist : Int)
    (hp : s.pose = some p) (ht : s.waypoint_tree = some tree)
    (hg : get_closest_light_in_front s (nearestIdx tree p) s.config =
      .ok (best, dist)) :
    (best = none →
      process_traffic_lights classify s =
        .ok (-1, .retColor TrafficLight.UNKNOWN)) ∧
    (∀ light lwi, best = some (light, lwi) → dist < WAYPOINT_LOOKAHEAD →
      process_traffic_lights classify s =
        (get_light_state classify s light).map (fun g => ((lwi : Int), g))) ∧
    (∀ light lwi, best = some (light, lwi) → WAYPOINT_LOOKAHEAD ≤ dist →
      process_traffic_lights classify s =
        .ok (-1, .retColor TrafficLight.UNKNOWN)) := by
  simp only [process_traffic_lights, hp, ht, hg]
  refine ⟨?_, ?_, ?_⟩
  · intro hb; simp only [hb]
  · intro light lwi hb hlt
    simp only [hb, if_pos hlt]
    cases get_light_state classify s light <;> rfl
  · intro light lwi hb hge; simp only [hb, if_neg (not_lt.mpr hge)]

set_option maxRecDepth 4000 in
theorem lookahead_gate_witness :
    process_traffic_lights (fun _ => TrafficLight.RED)
      { initDetector [(100, 0)] with
          pose := some (0, 0)
          waypoints := some ((List.range 101).map (fun i => ((i : Int), 0)))
          waypoint_tree := some ((List.range 101).map (fun i => ((i : Int), 0)))
          lights := [⟨(100, 1), TrafficLight.RED⟩] } =
      .ok (-1, .retColor TrafficLight.UNKNOWN) := by
  have h := lookahead_gate (fun _ => TrafficLight.RED)
    { initDetector [(100, 0)] with
        pose := some (0, 0)
        waypoints := some ((List.range 101).map (fun i => ((i : Int), 0)))
        waypoint_tree := some ((List.range 101).map (fun i => ((i : Int), 0)))
        lights := [⟨(100, 1), TrafficLight.RED⟩] }
    (0, 0) ((List.range 101).map (fun i => ((i : Int), 0)))
    (some (⟨(100, 1), TrafficLight.RED⟩, 100)) 100 rfl rfl rfl
  exact h.2.2 ⟨(100, 1), TrafficLight.RED⟩ 100 rfl (by decide)

/-- Full characterization of the selection loop of
`get_closest_light_in_front`, by induction along the remaining lights:
starting at enumeration index `i` with accumulator `(best, diff)`, the
loop never errors while `slp` covers the scanned indices, the final
`diff` is a lower bound of every nonnegative `d` value scanned, and
either the accumulator survives untouched (no scanned light had
`0 ≤ d < diff`) or the result is the first scanned light attaining the
final minimum. -/
theorem gclifAux_spec (tree : List (Int × Int)) (car : Nat)
    (slp : List (Int × Int)) :
    ∀ (ls : List Light) (i : Nat) (best : Option (Light × Nat)) (diff : Int),
      i + ls.length ≤ slp.length →
      ∃ best2 diff2,
        gclifAux (some tree) car slp ls i best diff = .ok (best2, diff2) ∧
        diff2 ≤ diff ∧
        (∀ k, k < ls.length → 0 ≤ dIdx tree slp car (i + k) →
          diff2 ≤ dIdx tree slp car (i + k)) ∧
        ((best2 = best ∧ diff2 = diff ∧
            ∀ k, k < ls.length →
              ¬(0 ≤ dIdx tree slp car (i + k) ∧
                dIdx tree slp car (i + k) < diff)) ∨
          (∃ k l, k < ls.length ∧ ls[k]? = some l ∧
            best2 = some (l, nearestIdx tree ((slp[i + k]?).getD (0, 0))) ∧
            diff2 = dIdx tree slp car (i + k) ∧ 0 ≤ diff2 ∧ diff2 < diff ∧
            ∀ m, m < k →
              ¬(0 ≤ dIdx tree slp car (i + m) ∧
                dIdx tree slp car (i + m) ≤ diff2))) := by
  intro ls
  induction ls with
  | nil =>
    intro i best diff _
    exact ⟨best, diff, rfl, le_refl diff, by simp, Or.inl ⟨rfl, rfl, by simp⟩⟩
  | cons light rest ih =>
    intro i best diff h
    rw [List.length_cons] at h
    have hi : i < slp.length := by omega
    have hline : slp[i]? = some slp[i] := List.getElem?_eq_getElem hi
    have hd0 : dIdx tree slp car i =
        (nearestIdx tree slp[i] : Int) - (car : Int) := by
      simp [dIdx, hline]
    by_cases hacc : 0 ≤ (nearestIdx tree slp[i] : Int) - (car : Int) ∧
        (nearestIdx tree slp[i] : Int) - (car : Int) < diff
    · -- the head light is accepted into the accumulator
      obtain ⟨best2, diff2, heq, hle, hmin, hcase⟩ :=
        ih (i + 1) (some (light, nearestIdx tree slp[i]))
          ((nearestIdx tree slp[i] : Int) - (car : Int)) (by omega)
      refine ⟨best2, diff2, ?_, ?_, ?_, ?_⟩
      · simp only [gclifAux, hline]
        rw [if_pos hacc]
        exact heq
      · have := hacc.2
        omega
      · intro k hk hk0
        cases k with
        | zero =>
          rw [Nat.add_zero] at hk0 ⊢
          rw [hd0] at hk0 ⊢
          exact hle
        | succ m =>
          have he : i + (m + 1) = (i + 1) + m := by omega
          rw [he] at hk0 ⊢
          rw [List.length_cons] at hk
          exact hmin m (by omega) hk0
      · rcases hcase with ⟨hb, hdf, hall⟩ |
          ⟨k, l, hk, hgl, hb, hdf, hpos, hlt, hfirst⟩
        · right
          refine ⟨0, light, by simp, by simp, ?_, ?_, ?_, ?_, ?_⟩
          · rw [hb, Nat.add_zero, hline]
            rfl
          · rw [hdf, Nat.add_zero, hd0]
          · rw [hdf]; exact hacc.1
          · rw [hdf]; exact hacc.2
          · intro m hm; exact absurd hm (Nat.not_lt_zero m)
        · right
          refine ⟨k + 1, l, by rw [List.length_cons]; omega,
            by simpa using hgl, ?_, ?_, hpos, ?_, ?_⟩
          · have he : i + (k + 1) = (i + 1) + k := by omega
            rw [he]; exact hb
          · have he : i + (k + 1) = (i + 1) + k := by omega
            rw [he]; exact hdf
          · have := hacc.2
            omega
          · intro m hm
            cases m with
            | zero =>
              rw [Nat.add_zero, hd0]
              intro hcon
              omega
            | succ m2 =>
              have he : i + (m2 + 1) = (i + 1) + m2 := by omega
              rw [he]
              exact hfirst m2 (by omega)
    · -- the head light is rejected, the accumulator is kept
      obtain ⟨best2, diff2, heq, hle, hmin, hcase⟩ :=
        ih (i + 1) best diff (by omega)
      refine ⟨best2, diff2, ?_, hle, ?_, ?_⟩
      · simp only [gclifAux, hline]
        rw [if_neg hacc]
        exact heq
      · intro k hk hk0
        cases k with
        | zero =>
          rw [Nat.add_zero] at hk0 ⊢
          rw [hd0] at hk0 ⊢
          have h2 : diff ≤ (nearestIdx tree slp[i] : Int) - (car : Int) := by
            by_contra hcon
            push_neg at hcon
            exact hacc ⟨hk0, hcon⟩
          omega
        | succ m =>
          have he : i + (m + 1) = (i + 1) + m := by omega
          rw [he] at hk0 ⊢
          rw [List.length_cons] at hk
          exact hmin m (by omega) hk0
      · rcases hcase with ⟨hb, hdf, hall⟩ |
          ⟨k, l, hk, hgl, hb, hdf, hpos, hlt, hfirst⟩
        · left
          refine ⟨hb, hdf, ?_⟩
          intro k hk2
          cases k with
          | zero =>
            rw [Nat.add_zero, hd0]
            exact hacc
          | succ m =>
            have he : i + (m + 1) = (i + 1) + m := by omega
            rw [he]
            rw [List.length_cons] at hk2
            exact hall m (by omega)
        · right
          refine ⟨k + 1, l, by rw [List.length_cons]; omega,
            by simpa using hgl, ?_, ?_, hpos, hlt, ?_⟩
          · have he : i + (k + 1) = (i + 1) + k := by omega
            rw [he]; exact hb
          · have he : i + (k + 1) = (i + 1) + k := by omega
            rw [he]; exact hdf
          · intro m hm
            cases m with
            | zero =>
              rw [Nat.add_zero, hd0]
              intro hcon
              have h2 : diff ≤ (nearestIdx tree slp[i] : Int) - (car : Int) := by
                by_contra hcon2
                push_neg at hcon2
                exact hacc ⟨hcon.1, hcon2⟩
              omega
            | succ m2 =>
              have he : i + (m2 + 1) = (i + 1) + m2 := by omega
              rw [he]
              exact hfirst m2 (by omega)

/-- C2: with the index built from the (nonempty) stored path and enough
stop-line entries, the selection never errors; any selected light has a
nonnegative path-index distance `d_i`, that distance is the returned
`diff`, it is minimal among all nonnegative `d_j`, and every earlier
light in iteration order is either behind the car or strictly farther
(first-seen wins under the strict comparison); moreover, whenever some
light has `d_j ≥ 0`, a light is selected. -/
theorem select_min_nonneg_first_seen (s : DetectorState)
    (wps : List (Int × Int)) (car : Nat) (slp : List (Int × Int))
    (hw : s.waypoints = some wps) (ht : s.waypoint_tree = some wps)
    (hne : wps ≠ []) (hlen : s.lights.length ≤ slp.length) :
    ∃ best diff,
      get_closest_light_in_front s car slp = .ok (best, diff) ∧
      (∀ light lwi, best = some (light, lwi) →
        ∃ i, s.lights[i]? = some light ∧
          lwi = nearestIdx wps ((slp[i]?).getD (0, 0)) ∧
          diff = dIdx wps slp car i ∧ 0 ≤ diff ∧
          (∀ j, j < s.lights.length → 0 ≤ dIdx wps slp car j →
            diff ≤ dIdx wps slp car j) ∧
          (∀ m, m < i →
            dIdx wps slp car m < 0 ∨ diff < dIdx wps slp car m)) ∧
      ((∃ j, j < s.lights.length ∧ 0 ≤ dIdx wps slp car j) →
        best.isSome = true) := by
  obtain ⟨best2, diff2, heq, hle, hmin, hcase⟩ :=
    gclifAux_spec wps car slp s.lights 0 none ((wps.length : Int))
      (by omega)
  simp only [Nat.zero_add] at hmin hcase
  refine ⟨best2, diff2, ?_, ?_, ?_⟩
  · simp only [get_closest_light_in_front, hw, ht]
    exact heq
  · intro light lwi hb
    rcases hcase with ⟨hbnone, _, _⟩ |
      ⟨k, l, hk, hgl, hb2, hdf, hpos, hlt, hfirst⟩
    · rw [hbnone] at hb
      simp at hb
    · rw [hb2] at hb
      rw [Option.some.injEq, Prod.mk.injEq] at hb
      refine ⟨k, ?_, ?_, hdf, hpos, hmin, ?_⟩
      · rw [← hb.1]; exact hgl
      · rw [← hb.2]
      · intro m hm
        rcases lt_or_ge (dIdx wps slp car m) 0 with h1 | h1
        · exact Or.inl h1
        · right
          by_contra h2
          push_neg at h2
          exact hfirst m hm ⟨h1, h2⟩
  · intro hex
    obtain ⟨j, hj, hj0⟩ := hex
    rcases hcase with ⟨hbnone, hdfeq, hall⟩ |
      ⟨k, l, hk, hgl, hb2, hdf, hpos, hlt, hfirst⟩
    · exfalso
      have hnear := nearestIdx_lt wps ((slp[j]?).getD (0, 0)) hne
      have hdj : dIdx wps slp car j < (wps.length : Int) := by
        unfold dIdx
        omega
      exact hall j hj ⟨hj0, hdj⟩
    · rw [hb2]
      rfl

theorem select_min_nonneg_first_seen_witness :
    ∃ best diff,
      get_closest_light_in_front
        { initDetector [] with
            waypoints := some [(0, 0), (1, 0), (2, 0), (3, 0), (4, 0), (5, 0)]
            waypoint_tree := some [(0, 0), (1, 0), (2, 0), (3, 0), (4, 0), (5, 0)]
            lights := [⟨(4, 1), 0⟩, ⟨(1, 1), 0⟩] } 2 [(4, 0), (1, 0)] =
        .ok (best, diff) ∧
      (∀ light lwi, best = some (light, lwi) →
        ∃ i, ([⟨(4, 1), 0⟩, ⟨(1, 1), 0⟩] : List Light)[i]? = some light ∧
          lwi = nearestIdx [(0, 0), (1, 0), (2, 0), (3, 0), (4, 0), (5, 0)]
            ((([(4, 0), (1, 0)] : List (Int × Int))[i]?).getD (0, 0)) ∧
          diff = dIdx [(0, 0), (1, 0), (2, 0), (3, 0), (4, 0), (5, 0)]
            [(4, 0), (1, 0)] 2 i ∧ 0 ≤ diff ∧
          (∀ j, j < ([⟨(4, 1), 0⟩, ⟨(1, 1), 0⟩] : List Light).length →
            0 ≤ dIdx [(0, 0), (1, 0), (2, 0), (3, 0), (4, 0), (5, 0)]
              [(4, 0), (1, 0)] 2 j →
            diff ≤ dIdx [(0, 0), (1, 0), (2, 0), (3, 0), (4, 0), (5, 0)]
              [(4, 0), (1, 0)] 2 j) ∧
          (∀ m, m < i →
            dIdx [(0, 0), (1, 0), (2, 0), (3, 0), (4, 0), (5, 0)]
              [(4, 0), (1, 0)] 2 m < 0 ∨
            diff < dIdx [(0, 0), (1, 0), (2, 0), (3, 0), (4, 0), (5, 0)]
              [(4, 0), (1, 0)] 2 m)) ∧
      ((∃ j, j < ([⟨(4, 1), 0⟩, ⟨(1, 1), 0⟩] : List Light).length ∧
          0 ≤ dIdx [(0, 0), (1, 0), (2, 0), (3, 0), (4, 0), (5, 0)]
            [(4, 0), (1, 0)] 2 j) →
        best.isSome = true) :=
  select_min_nonneg_first_seen
    { initDetector [] with
        waypoints := some [(0, 0), (1, 0), (2, 0), (3, 0), (4, 0), (5, 0)]
        waypoint_tree := some [(0, 0), (1, 0), (2, 0), (3, 0), (4, 0), (5, 0)]
        lights := [⟨(4, 1), 0⟩, ⟨(1, 1), 0⟩] }
    [(0, 0), (1, 0), (2, 0), (3, 0), (4, 0), (5, 0)] 2 [(4, 0), (1, 0)]
    rfl rfl (by decide) (by decide)

/-- C3: with the stored path present, the selection returns no light and
no stop index (`none` carries both `closest_light` and `line_wp_idx`)
with the distance left at the full stored-path length, both when the
light list is empty and when every light's path-index distance is
negative (all stop lines behind the car). -/
theorem select_all_behind_no_light (s : DetectorState)
    (wps tree : List (Int × Int)) (car : Nat) (slp : List (Int × Int))
    (hw : s.waypoints = some wps) :
    (s.lights = [] →
      get_closest_light_in_front s car slp = .ok (none, (wps.length : Int))) ∧
    (s.waypoint_tree = some tree → s.lights.length ≤ slp.length →
      (∀ j, j < s.lights.length → dIdx tree slp car j < 0) →
      get_closest_light_in_front s car slp = .ok (none, (wps.length : Int))) := by
  constructor
  · intro hl
    simp only [get_closest_light_in_front, hw, hl]
    rfl
  · intro ht hlen hneg
    obtain ⟨best2, diff2, heq, hle, hmin, hcase⟩ :=
      gclifAux_spec tree car slp s.lights 0 none ((wps.length : Int))
        (by omega)
    rcases hcase with ⟨hb, hd, _⟩ |
      ⟨k, l, hk, _, _, hdf, hpos, _, _⟩
    · simp only [get_closest_light_in_front, hw, ht]
      rw [heq, hb, hd]
    · exfalso
      have hneg2 := hneg k hk
      rw [Nat.zero_add] at hdf
      omega

theorem select_all_behind_no_light_witness :
    get_closest_light_in_front
      { initDetector [] with waypoints := some [(0, 0), (1, 0), (2, 0)] }
      2 [] = .ok (none, (([(0, 0), (1, 0), (2, 0)] : List (Int × Int)).length : Int)) ∧
    get_closest_light_in_front
      { initDetector [(0, 0)] with
          waypoints := some [(0, 0), (1, 0), (2, 0)]
          waypoint_tree := some [(0, 0), (1, 0), (2, 0)]
          lights := [⟨(0, 1), 0⟩] }
      2 [(0, 0)] = .ok (none, (([(0, 0), (1, 0), (2, 0)] : List (Int × Int)).length : Int)) :=
  ⟨(select_all_behind_no_light
      { initDetector [] with waypoints := some [(0, 0), (1, 0), (2, 0)] }
      [(0, 0), (1, 0), (2, 0)] [] 2 [] rfl).1 rfl,
   (select_all_behind_no_light
      { initDetector [(0, 0)] with
          waypoints := some [(0, 0), (1, 0), (2, 0)]
          waypoint_tree := some [(0, 0), (1, 0), (2, 0)]
          lights := [⟨(0, 1), 0⟩] }
      [(0, 0), (1, 0), (2, 0)] [(0, 0), (1, 0), (2, 0)] 2 [(0, 0)] rfl).2
      rfl (by decide) (by decide)⟩
